import Mathlib

/-!
# PyUVS — verification of the documented file-naming and orbit utilities

The repository ships only documentation (Sphinx `.rst` sources, a generated
search index, example notebooks).  The `files`, `geography` and `orbit`
modules of the package are declared in the documentation but their Python
source is not part of the supplied material, so the operations below are
modelled from the specification's description of the filesystem naming
convention `mvn_iuv_<level>_<segment>_orbitNNNNN_<channel>_<timestamp>_v<version>_r<revision>.fits`
and of the records parsed from it.  Documentation inventories (error
conditions, optional dependency groups, repository contents, documented API
objects) are transcribed directly from the supplied files.
-/

namespace PyUVS

/-! ## Decimal digit strings

Models Python's `str(n)` for a natural number, `str.zfill`, and `int(...)`
on a digit string. -/

/-- The character for a decimal digit `d < 10`, i.e. code point `48 + d`. -/
def digitChar (d : Nat) : Char := Char.ofNat (48 + d)

/-- Fuel-driven decimal representation: for `n < fuel`, the digits of `n`
most significant first.  Models Python's `str(n)`. -/
def natReprAux : Nat → Nat → List Char
  | 0, _ => []
  | f + 1, n =>
    if n < 10 then [digitChar n]
    else natReprAux f (n / 10) ++ [digitChar (n % 10)]

/-- The decimal representation of `n`, most significant digit first.
Models Python's `str(n)`. -/
def natRepr (n : Nat) : List Char := natReprAux (n + 1) n

/-- Left-pad a character list with `'0'` to width `w`.
Models Python's `str.zfill(w)`. -/
def zfill (w : Nat) (l : List Char) : List Char :=
  List.replicate (w - l.length) '0' ++ l

/-- The numeric value of a decimal digit string, most significant first.
Models Python's `int(...)` on a string of digits. -/
def digitsToNat (l : List Char) : Nat :=
  l.foldl (fun acc c => 10 * acc + (c.toNat - 48)) 0

/-- Whether every character of the list is a decimal digit. -/
def isDigits (l : List Char) : Bool := l.all Char.isDigit

theorem toNat_digitChar (d : Nat) (h : d < 10) : (digitChar d).toNat = 48 + d := by
  interval_cases d <;> decide

theorem isDigit_digitChar (d : Nat) (h : d < 10) : (digitChar d).isDigit = true := by
  interval_cases d <;> decide

theorem natReprAux_digits (f : Nat) :
    ∀ n, n < f → ∀ c ∈ natReprAux f n, c.isDigit = true := by
  induction f with
  | zero => intro n hn; omega
  | succ f ih =>
    intro n _ c hc
    rw [natReprAux] at hc
    by_cases h10 : n < 10
    · simp only [if_pos h10, List.mem_singleton] at hc
      subst hc; exact isDigit_digitChar n h10
    · simp only [if_neg h10, List.mem_append, List.mem_singleton] at hc
      rcases hc with hc | hc
      · exact ih (n / 10) (by omega) c hc
      · subst hc; exact isDigit_digitChar _ (Nat.mod_lt _ (by omega))

theorem natRepr_digits (n : Nat) : ∀ c ∈ natRepr n, c.isDigit = true :=
  natReprAux_digits (n + 1) n (Nat.lt_succ_self n)

theorem digitsToNat_append (a b : List Char) :
    digitsToNat (a ++ b) =
      b.foldl (fun acc c => 10 * acc + (c.toNat - 48)) (digitsToNat a) := by
  simp [digitsToNat, List.foldl_append]

theorem natReprAux_digitsToNat (f : Nat) :
    ∀ n, n < f → digitsToNat (natReprAux f n) = n := by
  induction f with
  | zero => intro n hn; omega
  | succ f ih =>
    intro n hn
    rw [natReprAux]
    by_cases h10 : n < 10
    · simp [digitsToNat, if_pos h10, toNat_digitChar n h10]
    · have hdiv : n / 10 < f := by
        have := Nat.div_lt_self (by omega : 0 < n) (by omega : 1 < 10)
        omega
      rw [if_neg h10, digitsToNat_append, ih (n / 10) hdiv]
      simp only [List.foldl_cons, List.foldl_nil]
      rw [toNat_digitChar _ (Nat.mod_lt _ (by omega))]
      omega

theorem natRepr_digitsToNat (n : Nat) : digitsToNat (natRepr n) = n :=
  natReprAux_digitsToNat (n + 1) n (Nat.lt_succ_self n)

theorem natReprAux_length_le (k : Nat) :
    ∀ f n, n < f → n < 10 ^ k → 1 ≤ k → (natReprAux f n).length ≤ k := by
  induction k with
  | zero => intro f n _ _ hk; omega
  | succ k ih =>
    intro f n hf hn _
    match f with
    | 0 => omega
    | f + 1 =>
      rw [natReprAux]
      by_cases h10 : n < 10
      · simp [if_pos h10]
      · have hk1 : 1 ≤ k := by
          by_contra h
          have : k = 0 := by omega
          subst this
          simp at hn
          omega
        have hdiv : n / 10 < f := by
          have := Nat.div_lt_self (by omega : 0 < n) (by omega : 1 < 10)
          omega
        have hdivpow : n / 10 < 10 ^ k := by
          rw [Nat.div_lt_iff_lt_mul (by omega : 0 < 10)]
          calc n < 10 ^ (k + 1) := hn
            _ = 10 ^ k * 10 := by ring
        rw [if_neg h10]
        have := ih f (n / 10) hdiv hdivpow hk1
        simp only [List.length_append, List.length_singleton]
        omega

theorem natRepr_length_le (k n : Nat) (hn : n < 10 ^ k) (hk : 1 ≤ k) :
    (natRepr n).length ≤ k :=
  natReprAux_length_le k (n + 1) n (Nat.lt_succ_self n) hn hk

theorem zfill_length (w : Nat) (l : List Char) (h : l.length ≤ w) :
    (zfill w l).length = w := by
  simp [zfill]
  omega

theorem zfill_digits (w : Nat) (l : List Char) (h : ∀ c ∈ l, c.isDigit = true) :
    ∀ c ∈ zfill w l, c.isDigit = true := by
  intro c hc
  simp only [zfill, List.mem_append, List.mem_replicate] at hc
  rcases hc with ⟨_, rfl⟩ | hc
  · decide
  · exact h c hc

theorem foldl_step_replicate_zero (m : Nat) :
    (List.replicate m '0').foldl (fun acc c => 10 * acc + (c.toNat - 48)) 0 = 0 := by
  induction m with
  | zero => rfl
  | succ m ih => simpa [List.replicate_succ] using ih

theorem digitsToNat_zfill (w : Nat) (l : List Char) :
    digitsToNat (zfill w l) = digitsToNat l := by
  have : digitsToNat (List.replicate (w - l.length) '0') = 0 :=
    foldl_step_replicate_zero _
  rw [zfill, digitsToNat_append, this]
  rfl

/-- Packaged facts about `str(n).zfill(w)` for `n < 10 ^ w`: width exactly
`w`, all digits, decoding back to `n`. -/
theorem zfill_natRepr_spec (w n : Nat) (hn : n < 10 ^ w) (hw : 1 ≤ w) :
    (zfill w (natRepr n)).length = w ∧
    (∀ c ∈ zfill w (natRepr n), c.isDigit = true) ∧
    digitsToNat (zfill w (natRepr n)) = n :=
  ⟨zfill_length w _ (natRepr_length_le w n hn hw),
   zfill_digits w _ (natRepr_digits n),
   by rw [digitsToNat_zfill, natRepr_digitsToNat]⟩

theorem isDigits_eq_true (l : List Char) (h : ∀ c ∈ l, c.isDigit = true) :
    isDigits l = true := by
  simp [isDigits, List.all_eq_true]
  exact h

theorem ne_underscore_of_isDigit (c : Char) (h : c.isDigit = true) : c ≠ '_' := by
  rintro rfl
  simp at h

theorem underscore_not_mem_of_digits (l : List Char)
    (h : ∀ c ∈ l, c.isDigit = true) : '_' ∉ l := by
  intro hmem
  exact ne_underscore_of_isDigit '_' (h _ hmem) rfl

/-! ## Splitting a character list on a separator

Models Python's `str.split(sep)`, the mechanism behind extracting the
underscore-separated components of a data-product filename. -/

/-- Split a character list at every occurrence of `sep`.
Models Python's `str.split(sep)` (always returns at least one piece). -/
def splitOnChar (sep : Char) : List Char → List (List Char)
  | [] => [[]]
  | c :: cs =>
    if c = sep then [] :: splitOnChar sep cs
    else
      match splitOnChar sep cs with
      | [] => [[c]]
      | p :: ps => (c :: p) :: ps

theorem splitOnChar_of_not_mem (sep : Char) (l : List Char) (h : sep ∉ l) :
    splitOnChar sep l = [l] := by
  induction l with
  | nil => rfl
  | cons c cs ih =>
    have hc : c ≠ sep := fun hc => h (hc ▸ List.mem_cons_self c cs)
    have hcs : sep ∉ cs := fun hm => h (List.mem_cons_of_mem c hm)
    rw [splitOnChar, if_neg hc, ih hcs]

theorem splitOnChar_append_cons (sep : Char) (a b : List Char) (h : sep ∉ a) :
    splitOnChar sep (a ++ sep :: b) = a :: splitOnChar sep b := by
  induction a with
  | nil => simp [splitOnChar]
  | cons c a' ih =>
    have hc : c ≠ sep := fun hc => h (hc ▸ List.mem_cons_self c a')
    have ha' : sep ∉ a' := fun hm => h (List.mem_cons_of_mem c hm)
    rw [List.cons_append, splitOnChar, if_neg hc, ih ha']

/-! ## The parsed data-product filename

Modelled from the spec: the Python source of the `files` module is not part
of the supplied repository material; `DataFilename` and its parsing are
modelled from the specification's naming convention
`mvn_iuv_<level>_<segment>_orbitNNNNN_<channel>_<timestamp>_v<version>_r<revision>.fits`
and its data-model description (spacecraft, instrument, level, description,
orbit/time fields, extension, revision/version — strings or integers parsed
from the filename). -/

/-- Modelled from the spec: a parsed IUVS data-product filename, holding
spacecraft, instrument, level, description/segment, orbit and time fields,
channel, version, revision and extension, each a string or an integer. -/
structure DataFilename where
  spacecraft : String
  instrument : String
  level : String
  description : String
  segment : String
  orbit : Nat
  channel : String
  timestamp : String
  year : Nat
  month : Nat
  day : Nat
  hour : Nat
  minute : Nat
  second : Nat
  version : Nat
  revision : Nat
  extension : String
  deriving Repr, DecidableEq

/-- Parse the `orbitNNNNN` component: the literal word `orbit` followed by
exactly five decimal digits. -/
def parseOrbitField : List Char → Option Nat
  | 'o' :: 'r' :: 'b' :: 'i' :: 't' :: ds =>
    if ds.length = 5 ∧ isDigits ds = true then some (digitsToNat ds) else none
  | _ => none

/-- Parse the `<timestamp>` component `YYYYMMDDThhmmss` into its
year/month/day/hour/minute/second fields. -/
def parseTimestampField : List Char → Option (Nat × Nat × Nat × Nat × Nat × Nat)
  | [y1, y2, y3, y4, mo1, mo2, d1, d2, 'T', h1, h2, mi1, mi2, s1, s2] =>
    if isDigits [y1, y2, y3, y4, mo1, mo2, d1, d2, h1, h2, mi1, mi2, s1, s2] = true then
      some (digitsToNat [y1, y2, y3, y4], digitsToNat [mo1, mo2], digitsToNat [d1, d2],
            digitsToNat [h1, h2], digitsToNat [mi1, mi2], digitsToNat [s1, s2])
    else none
  | _ => none

/-- Parse the `v<version>` component: `v` followed by two decimal digits. -/
def parseVersionField : List Char → Option Nat
  | 'v' :: ds =>
    if ds.length = 2 ∧ isDigits ds = true then some (digitsToNat ds) else none
  | _ => none

/-- Parse the final `r<revision>.<extension>` component: `r`, two decimal
digits, a dot, then the extension. -/
def parseRevExtField : List Char → Option (Nat × List Char)
  | 'r' :: d1 :: d2 :: '.' :: ext =>
    if isDigits [d1, d2] = true then some (digitsToNat [d1, d2], ext) else none
  | _ => none

/-- Modelled from the spec: construct a `DataFilename` record from the
underscore-separated components of a filename following the naming
convention; `none` models the value error raised on a malformed filename. -/
def parseDataFilenameList (l : List Char) : Option DataFilename :=
  match splitOnChar '_' l with
  | [c0, c1, c2, c3, c4, c5, c6, c7, c8] =>
    if c0 = ['m', 'v', 'n'] ∧ c1 = ['i', 'u', 'v'] then
      match parseOrbitField c4, parseTimestampField c6,
            parseVersionField c7, parseRevExtField c8 with
      | some orb, some (y, mo, dy, h, mi, s), some ver, some (rev, ext) =>
        some { spacecraft := ⟨c0⟩, instrument := ⟨c1⟩, level := ⟨c2⟩,
               description := ⟨c3⟩, segment := ⟨c3⟩, orbit := orb,
               channel := ⟨c5⟩, timestamp := ⟨c6⟩,
               year := y, month := mo, day := dy,
               hour := h, minute := mi, second := s,
               version := ver, revision := rev, extension := ⟨ext⟩ }
      | _, _, _, _ => none
    else none
  | _ => none

/-- Modelled from the spec: constructing a `files.DataFilename` from a
filename string. -/
def parseDataFilename (s : String) : Option DataFilename :=
  parseDataFilenameList s.data

/-- The `orbitNNNNN` component built from an orbit number. -/
def orbitField (n : Nat) : List Char :=
  'o' :: 'r' :: 'b' :: 'i' :: 't' :: zfill 5 (natRepr n)

/-- The `YYYYMMDDThhmmss` timestamp component built from its fields. -/
def timestampChars (y mo dy h mi s : Nat) : List Char :=
  zfill 4 (natRepr y) ++ zfill 2 (natRepr mo) ++ zfill 2 (natRepr dy) ++
    'T' :: (zfill 2 (natRepr h) ++ zfill 2 (natRepr mi) ++ zfill 2 (natRepr s))

/-- The `v<version>` component built from a version number. -/
def versionField (v : Nat) : List Char := 'v' :: zfill 2 (natRepr v)

/-- The final `r<revision>.<extension>` component. -/
def revExtField (r : Nat) (ext : List Char) : List Char :=
  'r' :: zfill 2 (natRepr r) ++ '.' :: ext

/-- A data-product filename assembled from its components according to the
naming convention
`mvn_iuv_<level>_<segment>_orbitNNNNN_<channel>_<timestamp>_v<version>_r<revision>.fits`. -/
def mkDataFilenameList (level segment channel ext : List Char)
    (orbit y mo dy h mi s ver rev : Nat) : List Char :=
  ['m', 'v', 'n'] ++ '_' ::
    (['i', 'u', 'v'] ++ '_' ::
      (level ++ '_' ::
        (segment ++ '_' ::
          (orbitField orbit ++ '_' ::
            (channel ++ '_' ::
              (timestampChars y mo dy h mi s ++ '_' ::
                (versionField ver ++ '_' :: revExtField rev ext)))))))

/-- String form of `mkDataFilenameList`. -/
def mkDataFilename (level segment channel ext : List Char)
    (orbit y mo dy h mi s ver rev : Nat) : String :=
  ⟨mkDataFilenameList level segment channel ext orbit y mo dy h mi s ver rev⟩

/-- The record a convention-following filename should parse to: every field
is the corresponding component of the filename. -/
def canonicalRecord (level segment channel ext : List Char)
    (orbit y mo dy h mi s ver rev : Nat) : DataFilename :=
  { spacecraft := "mvn", instrument := "iuv", level := ⟨level⟩,
    description := ⟨segment⟩, segment := ⟨segment⟩, orbit := orbit,
    channel := ⟨channel⟩, timestamp := ⟨timestampChars y mo dy h mi s⟩,
    year := y, month := mo, day := dy, hour := h, minute := mi, second := s,
    version := ver, revision := rev, extension := ⟨ext⟩ }

/-- Modelled from the spec: the `DataFilename.filename` property,
reconstructing the filename string from the parsed record's fields. -/
def DataFilename.filename (d : DataFilename) : String :=
  ⟨d.spacecraft.data ++ '_' ::
    (d.instrument.data ++ '_' ::
      (d.level.data ++ '_' ::
        (d.segment.data ++ '_' ::
          (orbitField d.orbit ++ '_' ::
            (d.channel.data ++ '_' ::
              (d.timestamp.data ++ '_' ::
                (versionField d.version ++ '_' :: revExtField d.revision d.extension.data)))))))⟩

theorem length_eq_four' (l : List Char) (h : l.length = 4) :
    ∃ a b c d, l = [a, b, c, d] := by
  cases l with
  | nil => simp at h
  | cons a t =>
    have ht : t.length = 3 := by simpa using h
    obtain ⟨b, c, d, rfl⟩ := List.length_eq_three.mp ht
    exact ⟨a, b, c, d, rfl⟩

theorem parseOrbitField_mk (n : Nat) (hn : n < 100000) :
    parseOrbitField (orbitField n) = some n := by
  obtain ⟨hlen, hdig, hval⟩ :=
    zfill_natRepr_spec 5 n (lt_of_lt_of_eq hn (by norm_num)) (by norm_num)
  rw [orbitField]
  simp only [parseOrbitField]
  rw [if_pos ⟨hlen, isDigits_eq_true _ hdig⟩, hval]

theorem parseVersionField_mk (v : Nat) (hv : v < 100) :
    parseVersionField (versionField v) = some v := by
  obtain ⟨hlen, hdig, hval⟩ :=
    zfill_natRepr_spec 2 v (lt_of_lt_of_eq hv (by norm_num)) (by norm_num)
  rw [versionField]
  simp only [parseVersionField]
  rw [if_pos ⟨hlen, isDigits_eq_true _ hdig⟩, hval]

theorem parseRevExtField_mk (r : Nat) (ext : List Char) (hr : r < 100) :
    parseRevExtField (revExtField r ext) = some (r, ext) := by
  obtain ⟨hlen, hdig, hval⟩ :=
    zfill_natRepr_spec 2 r (lt_of_lt_of_eq hr (by norm_num)) (by norm_num)
  obtain ⟨d1, d2, hd⟩ := List.length_eq_two.mp hlen
  rw [revExtField, hd]
  simp only [List.cons_append, List.nil_append]
  simp only [parseRevExtField]
  rw [if_pos (isDigits_eq_true _ (hd ▸ hdig)), ← hd, hval]

theorem parseTimestampField_mk (y mo dy h mi s : Nat)
    (hy : y < 10000) (hmo : mo < 100) (hdy : dy < 100) (hh : h < 100)
    (hmi : mi < 100) (hs : s < 100) :
    parseTimestampField (timestampChars y mo dy h mi s) = some (y, mo, dy, h, mi, s) := by
  obtain ⟨hylen, hydig, hyval⟩ :=
    zfill_natRepr_spec 4 y (lt_of_lt_of_eq hy (by norm_num)) (by norm_num)
  obtain ⟨hmolen, hmodig, hmoval⟩ :=
    zfill_natRepr_spec 2 mo (lt_of_lt_of_eq hmo (by norm_num)) (by norm_num)
  obtain ⟨hdylen, hdydig, hdyval⟩ :=
    zfill_natRepr_spec 2 dy (lt_of_lt_of_eq hdy (by norm_num)) (by norm_num)
  obtain ⟨hhlen, hhdig, hhval⟩ :=
    zfill_natRepr_spec 2 h (lt_of_lt_of_eq hh (by norm_num)) (by norm_num)
  obtain ⟨hmilen, hmidig, hmival⟩ :=
    zfill_natRepr_spec 2 mi (lt_of_lt_of_eq hmi (by norm_num)) (by norm_num)
  obtain ⟨hslen, hsdig, hsval⟩ :=
    zfill_natRepr_spec 2 s (lt_of_lt_of_eq hs (by norm_num)) (by norm_num)
  obtain ⟨a1, a2, a3, a4, hY⟩ := length_eq_four' _ hylen
  obtain ⟨b1, b2, hM⟩ := List.length_eq_two.mp hmolen
  obtain ⟨c1, c2, hD⟩ := List.length_eq_two.mp hdylen
  obtain ⟨e1, e2, hH⟩ := List.length_eq_two.mp hhlen
  obtain ⟨f1, f2, hI⟩ := List.length_eq_two.mp hmilen
  obtain ⟨g1, g2, hS⟩ := List.length_eq_two.mp hslen
  have h1 : ∀ c ∈ [a1, a2, a3, a4], c.isDigit = true := hY ▸ hydig
  have h2 : ∀ c ∈ [b1, b2], c.isDigit = true := hM ▸ hmodig
  have h3 : ∀ c ∈ [c1, c2], c.isDigit = true := hD ▸ hdydig
  have h4 : ∀ c ∈ [e1, e2], c.isDigit = true := hH ▸ hhdig
  have h5 : ∀ c ∈ [f1, f2], c.isDigit = true := hI ▸ hmidig
  have h6 : ∀ c ∈ [g1, g2], c.isDigit = true := hS ▸ hsdig
  have ha1 : a1.isDigit = true := h1 a1 (by simp)
  have ha2 : a2.isDigit = true := h1 a2 (by simp)
  have ha3 : a3.isDigit = true := h1 a3 (by simp)
  have ha4 : a4.isDigit = true := h1 a4 (by simp)
  have hb1 : b1.isDigit = true := h2 b1 (by simp)
  have hb2 : b2.isDigit = true := h2 b2 (by simp)
  have hc1 : c1.isDigit = true := h3 c1 (by simp)
  have hc2 : c2.isDigit = true := h3 c2 (by simp)
  have he1 : e1.isDigit = true := h4 e1 (by simp)
  have he2 : e2.isDigit = true := h4 e2 (by simp)
  have hf1 : f1.isDigit = true := h5 f1 (by simp)
  have hf2 : f2.isDigit = true := h5 f2 (by simp)
  have hg1 : g1.isDigit = true := h6 g1 (by simp)
  have hg2 : g2.isDigit = true := h6 g2 (by simp)
  have hdigAll :
      isDigits [a1, a2, a3, a4, b1, b2, c1, c2, e1, e2, f1, f2, g1, g2] = true := by
    apply isDigits_eq_true
    intro c hc
    simp only [List.mem_cons, List.not_mem_nil, or_false] at hc
    rcases hc with rfl | rfl | rfl | rfl | rfl | rfl | rfl | rfl | rfl | rfl | rfl | rfl | rfl | rfl <;>
      assumption
  rw [timestampChars, hY, hM, hD, hH, hI, hS]
  simp only [List.cons_append, List.nil_append]
  simp only [parseTimestampField]
  rw [if_pos hdigAll, ← hY, ← hM, ← hD, ← hH, ← hI, ← hS,
      hyval, hmoval, hdyval, hhval, hmival, hsval]

theorem underscore_not_mem_orbitField (n : Nat) : '_' ∉ orbitField n := by
  rw [orbitField]
  intro hmem
  simp only [List.mem_cons] at hmem
  rcases hmem with h | h | h | h | h | h
  · exact absurd h (by decide)
  · exact absurd h (by decide)
  · exact absurd h (by decide)
  · exact absurd h (by decide)
  · exact absurd h (by decide)
  · exact underscore_not_mem_of_digits _ (zfill_digits 5 _ (natRepr_digits n)) h

theorem underscore_not_mem_timestampChars (y mo dy h mi s : Nat) :
    '_' ∉ timestampChars y mo dy h mi s := by
  rw [timestampChars]
  intro hmem
  simp only [List.mem_append, List.mem_cons] at hmem
  rcases hmem with ((h' | h') | h') | h' | (h' | h')
  · exact underscore_not_mem_of_digits _ (zfill_digits 4 _ (natRepr_digits y)) h'
  · exact underscore_not_mem_of_digits _ (zfill_digits 2 _ (natRepr_digits mo)) h'
  · exact underscore_not_mem_of_digits _ (zfill_digits 2 _ (natRepr_digits dy)) h'
  · exact absurd h' (by decide)
  · rcases h' with h' | h'
    · exact underscore_not_mem_of_digits _ (zfill_digits 2 _ (natRepr_digits h)) h'
    · exact underscore_not_mem_of_digits _ (zfill_digits 2 _ (natRepr_digits mi)) h'
  · exact underscore_not_mem_of_digits _ (zfill_digits 2 _ (natRepr_digits s)) h'

theorem underscore_not_mem_versionField (v : Nat) : '_' ∉ versionField v := by
  rw [versionField]
  intro hmem
  simp only [List.mem_cons] at hmem
  rcases hmem with h | h
  · exact absurd h (by decide)
  · exact underscore_not_mem_of_digits _ (zfill_digits 2 _ (natRepr_digits v)) h

theorem underscore_not_mem_revExtField (r : Nat) (ext : List Char)
    (hext : '_' ∉ ext) : '_' ∉ revExtField r ext := by
  rw [revExtField]
  intro hmem
  simp only [List.mem_cons, List.mem_append] at hmem
  rcases hmem with (h | h) | (h | h)
  · exact absurd h (by decide)
  · exact underscore_not_mem_of_digits _ (zfill_digits 2 _ (natRepr_digits r)) h
  · exact absurd h (by decide)
  · exact hext h

theorem splitOnChar_mk (level segment channel ext : List Char)
    (orbit y mo dy h mi s ver rev : Nat)
    (hlev : '_' ∉ level) (hseg : '_' ∉ segment)
    (hch : '_' ∉ channel) (hext : '_' ∉ ext) :
    splitOnChar '_' (mkDataFilenameList level segment channel ext orbit y mo dy h mi s ver rev) =
      [['m', 'v', 'n'], ['i', 'u', 'v'], level, segment, orbitField orbit, channel,
       timestampChars y mo dy h mi s, versionField ver, revExtField rev ext] := by
  rw [mkDataFilenameList]
  rw [splitOnChar_append_cons _ _ _ (by decide),
      splitOnChar_append_cons _ _ _ (by decide),
      splitOnChar_append_cons _ _ _ hlev,
      splitOnChar_append_cons _ _ _ hseg,
      splitOnChar_append_cons _ _ _ (underscore_not_mem_orbitField orbit),
      splitOnChar_append_cons _ _ _ hch,
      splitOnChar_append_cons _ _ _ (underscore_not_mem_timestampChars y mo dy h mi s),
      splitOnChar_append_cons _ _ _ (underscore_not_mem_versionField ver),
      splitOnChar_of_not_mem _ _ (underscore_not_mem_revExtField rev ext hext)]

/-- A filename assembled from its components according to the naming
convention parses to exactly the record of those components. -/
theorem parse_mk_eq (level segment channel ext : List Char)
    (orbit y mo dy h mi s ver rev : Nat)
    (hlev : '_' ∉ level) (hseg : '_' ∉ segment)
    (hch : '_' ∉ channel) (hext : '_' ∉ ext)
    (horb : orbit < 100000) (hy : y < 10000) (hmo : mo < 100) (hdy : dy < 100)
    (hh : h < 100) (hmi : mi < 100) (hs : s < 100)
    (hver : ver < 100) (hrev : rev < 100) :
    parseDataFilenameList (mkDataFilenameList level segment channel ext orbit y mo dy h mi s ver rev) =
      some (canonicalRecord level segment channel ext orbit y mo dy h mi s ver rev) := by
  unfold parseDataFilenameList
  rw [splitOnChar_mk level segment channel ext orbit y mo dy h mi s ver rev hlev hseg hch hext]
  simp only [parseOrbitField_mk orbit horb,
    parseTimestampField_mk y mo dy h mi s hy hmo hdy hh hmi hs,
    parseVersionField_mk ver hver, parseRevExtField_mk rev ext hrev,
    canonicalRecord, and_self, if_true, ite_true, reduceIte]

theorem filename_canonicalRecord (level segment channel ext : List Char)
    (orbit y mo dy h mi s ver rev : Nat) :
    (canonicalRecord level segment channel ext orbit y mo dy h mi s ver rev).filename =
      mkDataFilename level segment channel ext orbit y mo dy h mi s ver rev := rfl

/-- **C1.** For every data-product filename following the convention
`mvn_iuv_<level>_<segment>_orbitNNNNN_<channel>_<timestamp>_v<version>_r<revision>.fits`,
constructing a `files.DataFilename` from it yields a record whose fields
(spacecraft, instrument, level, description/segment, orbit, the
year/month/day/hour/minute/second timestamp fields, channel, version,
revision, extension) equal the corresponding components of the filename,
each field being a string or an integer. -/
theorem dataFilename_fields_eq_components (level segment channel ext : List Char)
    (orbit y mo dy h mi s ver rev : Nat)
    (hlev : '_' ∉ level) (hseg : '_' ∉ segment)
    (hch : '_' ∉ channel) (hext : '_' ∉ ext)
    (horb : orbit < 100000) (hy : y < 10000) (hmo : mo < 100) (hdy : dy < 100)
    (hh : h < 100) (hmi : mi < 100) (hs : s < 100)
    (hver : ver < 100) (hrev : rev < 100) :
    parseDataFilename (mkDataFilename level segment channel ext orbit y mo dy h mi s ver rev) =
      some { spacecraft := "mvn", instrument := "iuv", level := ⟨level⟩,
             description := ⟨segment⟩, segment := ⟨segment⟩, orbit := orbit,
             channel := ⟨channel⟩, timestamp := ⟨timestampChars y mo dy h mi s⟩,
             year := y, month := mo, day := dy, hour := h, minute := mi, second := s,
             version := ver, revision := rev, extension := ⟨ext⟩ } :=
  parse_mk_eq level segment channel ext orbit y mo dy h mi s ver rev
    hlev hseg hch hext horb hy hmo hdy hh hmi hs hver hrev

/-- Witness for C1 at the concrete filename
`mvn_iuv_l1b_periapse_orbit03453_muv_20160708T051356_v13_r01.fits`. -/
theorem dataFilename_fields_eq_components_witness :
    parseDataFilename (mkDataFilename "l1b".data "periapse".data "muv".data "fits".data
        3453 2016 7 8 5 13 56 13 1) =
      some { spacecraft := "mvn", instrument := "iuv", level := ⟨"l1b".data⟩,
             description := ⟨"periapse".data⟩, segment := ⟨"periapse".data⟩, orbit := 3453,
             channel := ⟨"muv".data⟩, timestamp := ⟨timestampChars 2016 7 8 5 13 56⟩,
             year := 2016, month := 7, day := 8, hour := 5, minute := 13, second := 56,
             version := 13, revision := 1, extension := ⟨"fits".data⟩ } :=
  dataFilename_fields_eq_components "l1b".data "periapse".data "muv".data "fits".data
    3453 2016 7 8 5 13 56 13 1
    (by decide) (by decide) (by decide) (by decide) (by decide) (by decide)
    (by decide) (by decide) (by decide) (by decide) (by decide) (by decide) (by decide)

/-- **C2.** For every valid IUVS data-product filename, parsing it into a
`files.DataFilename` and reconstructing the filename from the parsed record
(the `DataFilename.filename` property) yields the original string. -/
theorem dataFilename_roundtrip (level segment channel ext : List Char)
    (orbit y mo dy h mi s ver rev : Nat)
    (hlev : '_' ∉ level) (hseg : '_' ∉ segment)
    (hch : '_' ∉ channel) (hext : '_' ∉ ext)
    (horb : orbit < 100000) (hy : y < 10000) (hmo : mo < 100) (hdy : dy < 100)
    (hh : h < 100) (hmi : mi < 100) (hs : s < 100)
    (hver : ver < 100) (hrev : rev < 100) :
    ∀ d : DataFilename,
      parseDataFilename (mkDataFilename level segment channel ext orbit y mo dy h mi s ver rev) =
        some d →
      d.filename = mkDataFilename level segment channel ext orbit y mo dy h mi s ver rev := by
  intro d hd
  have h' : parseDataFilename
        (mkDataFilename level segment channel ext orbit y mo dy h mi s ver rev) =
      some (canonicalRecord level segment channel ext orbit y mo dy h mi s ver rev) :=
    parse_mk_eq level segment channel ext orbit y mo dy h mi s ver rev
      hlev hseg hch hext horb hy hmo hdy hh hmi hs hver hrev
  rw [h', Option.some.injEq] at hd
  subst hd
  exact filename_canonicalRecord level segment channel ext orbit y mo dy h mi s ver rev

/-- Witness for C2 at the concrete filename
`mvn_iuv_l1b_periapse_orbit03453_muv_20160708T051356_v13_r01.fits`. -/
theorem dataFilename_roundtrip_witness :
    (canonicalRecord "l1b".data "periapse".data "muv".data "fits".data
        3453 2016 7 8 5 13 56 13 1).filename =
      mkDataFilename "l1b".data "periapse".data "muv".data "fits".data
        3453 2016 7 8 5 13 56 13 1 :=
  dataFilename_roundtrip "l1b".data "periapse".data "muv".data "fits".data
    3453 2016 7 8 5 13 56 13 1
    (by decide) (by decide) (by decide) (by decide) (by decide) (by decide)
    (by decide) (by decide) (by decide) (by decide) (by decide) (by decide) (by decide)
    (canonicalRecord "l1b".data "periapse".data "muv".data "fits".data
      3453 2016 7 8 5 13 56 13 1)
    (by decide)

/-! ## The Orbit descriptor

Modelled from the spec: the Python source of `files.Orbit` is not part of the
supplied repository material; the descriptor is modelled from the
specification's data model (numeric orbit id plus its containing block, a
grouping of consecutive orbit numbers used to organize data-file storage
directories) and the documentation's worked values (orbit 3453, block folder
`orbit03400`). -/

/-- Modelled from the spec: the `files.Orbit` descriptor, holding the numeric
orbit id together with its containing orbit block. -/
structure Orbit where
  orbit : Nat
  block : Nat
  deriving Repr, DecidableEq

/-- Modelled from the spec: construct the `files.Orbit` descriptor for an
orbit number; blocks group 100 consecutive orbits. -/
def makeOrbit (n : Nat) : Orbit :=
  { orbit := n, block := n / 100 * 100 }

/-- Modelled from the spec: the `Orbit.block_folder` property, the string
`orbit` followed by the block number zero-padded to five digits. -/
def Orbit.block_folder (o : Orbit) : String :=
  ⟨'o' :: 'r' :: 'b' :: 'i' :: 't' :: zfill 5 (natRepr o.block)⟩

/-- **C7.** For every orbit number, the `files.Orbit` descriptor holds
exactly the numeric orbit id together with its containing orbit block — a
multiple-of-100 boundary whose group of 100 consecutive orbit numbers
contains the orbit — exposed via its `orbit` and `block` properties. -/
theorem orbit_holds_id_and_block (n : Nat) :
    (makeOrbit n).orbit = n ∧
    (makeOrbit n).block % 100 = 0 ∧
    (makeOrbit n).block ≤ n ∧ n < (makeOrbit n).block + 100 := by
  have hb : (makeOrbit n).block = n / 100 * 100 := rfl
  refine ⟨rfl, ?_, ?_, ?_⟩ <;> rw [hb] <;> omega

/-- **C9.** For every orbit number `n < 100000`, the orbit block is `n`
rounded down to the nearest multiple of 100, and `Orbit.block_folder` is the
string `orbit` followed by the block number zero-padded to 5 digits. -/
theorem orbit_block_folder_form (n : Nat) (hn : n < 100000) :
    (makeOrbit n).block = n - n % 100 ∧
    ∃ ds : List Char,
      (makeOrbit n).block_folder = ⟨'o' :: 'r' :: 'b' :: 'i' :: 't' :: ds⟩ ∧
      ds.length = 5 ∧ (∀ c ∈ ds, c.isDigit = true) ∧
      digitsToNat ds = (makeOrbit n).block := by
  have hb : (makeOrbit n).block = n / 100 * 100 := rfl
  have hblt : (makeOrbit n).block < 10 ^ 5 := by
    rw [hb]
    have : n / 100 * 100 ≤ n := Nat.div_mul_le_self n 100
    norm_num
    omega
  constructor
  · rw [hb]; omega
  · refine ⟨zfill 5 (natRepr (makeOrbit n).block), rfl, ?_, ?_, ?_⟩
    · exact zfill_length 5 _ (natRepr_length_le 5 _ hblt (by norm_num))
    · exact zfill_digits 5 _ (natRepr_digits _)
    · rw [digitsToNat_zfill, natRepr_digitsToNat]

/-- Witness for C9: orbit 3453 lies in block 3400 with block folder
`orbit03400`. -/
theorem orbit_block_folder_form_witness :
    (makeOrbit 3453).block_folder = "orbit03400" ∧
    ((makeOrbit 3453).block = 3453 - 3453 % 100 ∧
      ∃ ds : List Char,
        (makeOrbit 3453).block_folder = ⟨'o' :: 'r' :: 'b' :: 'i' :: 't' :: ds⟩ ∧
        ds.length = 5 ∧ (∀ c ∈ ds, c.isDigit = true) ∧
        digitsToNat ds = (makeOrbit 3453).block) :=
  ⟨by decide, orbit_block_folder_form 3453 (by decide)⟩

/-! ## Collections of parsed filenames

Modelled from the spec: the Python source of `files.DataFilenameCollection`
is not part of the supplied repository material; it is modelled from the
documented API (a collection of parsed filenames exposing `n_files` and the
`all_l1b`/`all_l1c`/`all_apoapse`/`all_periapse`/`all_ech`/`all_fuv`/`all_muv`
predicates). -/

/-- Modelled from the spec: a collection of parsed data-product filenames. -/
structure DataFilenameCollection where
  filenames : List DataFilename
  deriving Repr

/-- The number of files in the collection. -/
def DataFilenameCollection.n_files (c : DataFilenameCollection) : Nat :=
  c.filenames.length

/-- Whether every file in the collection is a level-1b product. -/
def DataFilenameCollection.all_l1b (c : DataFilenameCollection) : Bool :=
  c.filenames.all (fun f => f.level == "l1b")

/-- Whether every file in the collection is a level-1c product. -/
def DataFilenameCollection.all_l1c (c : DataFilenameCollection) : Bool :=
  c.filenames.all (fun f => f.level == "l1c")

/-- Whether every file in the collection is an apoapse-segment product. -/
def DataFilenameCollection.all_apoapse (c : DataFilenameCollection) : Bool :=
  c.filenames.all (fun f => f.segment == "apoapse")

/-- Whether every file in the collection is a periapse-segment product. -/
def DataFilenameCollection.all_periapse (c : DataFilenameCollection) : Bool :=
  c.filenames.all (fun f => f.segment == "periapse")

/-- Whether every file in the collection is an echelle-channel product. -/
def DataFilenameCollection.all_ech (c : DataFilenameCollection) : Bool :=
  c.filenames.all (fun f => f.channel == "ech")

/-- Whether every file in the collection is a far-ultraviolet product. -/
def DataFilenameCollection.all_fuv (c : DataFilenameCollection) : Bool :=
  c.filenames.all (fun f => f.channel == "fuv")

/-- Whether every file in the collection is a mid-ultraviolet product. -/
def DataFilenameCollection.all_muv (c : DataFilenameCollection) : Bool :=
  c.filenames.all (fun f => f.channel == "muv")

/-- **C8.** For every collection of parsed filenames,
`files.DataFilenameCollection` exposes `n_files` equal to the number of files
in the collection, and boolean predicates `all_l1b`, `all_l1c`,
`all_apoapse`, `all_periapse`, `all_ech`, `all_fuv`, `all_muv`, each of which
returns true if and only if every filename in the collection has the
corresponding level, segment, or channel. -/
theorem collection_counts_and_predicates (c : DataFilenameCollection) :
    c.n_files = c.filenames.length ∧
    (c.all_l1b = true ↔ ∀ f ∈ c.filenames, f.level = "l1b") ∧
    (c.all_l1c = true ↔ ∀ f ∈ c.filenames, f.level = "l1c") ∧
    (c.all_apoapse = true ↔ ∀ f ∈ c.filenames, f.segment = "apoapse") ∧
    (c.all_periapse = true ↔ ∀ f ∈ c.filenames, f.segment = "periapse") ∧
    (c.all_ech = true ↔ ∀ f ∈ c.filenames, f.channel = "ech") ∧
    (c.all_fuv = true ↔ ∀ f ∈ c.filenames, f.channel = "fuv") ∧
    (c.all_muv = true ↔ ∀ f ∈ c.filenames, f.channel = "muv") := by
  refine ⟨rfl, ?_, ?_, ?_, ?_, ?_, ?_, ?_⟩ <;>
    simp [DataFilenameCollection.all_l1b, DataFilenameCollection.all_l1c,
      DataFilenameCollection.all_apoapse, DataFilenameCollection.all_periapse,
      DataFilenameCollection.all_ech, DataFilenameCollection.all_fuv,
      DataFilenameCollection.all_muv, List.all_eq_true]

/-! ## Documented error conditions of the files utilities

Transcribed from the source: the generated Sphinx search index maps each
indexed term to the documents it occurs in; document 2 is
`rst/api-reference/files`.  The exception and warning names appearing in the
term table are listed here with their document lists. -/

/-- Exception and warning names in the search index's term table, with the
documents each occurs in (document 2 is the `files` API page; the bare term
`error` is indexed for no document). -/
def indexedErrorTerms : List (String × List Nat) :=
  [("error", []), ("filenotfounderror", [2]), ("oserror", [2]),
   ("typeerror", [2]), ("userwarn", [2]), ("valueerror", [2])]

/-- The exception and warning names documented on the `files` API page. -/
def filesDocErrorTerms : List String :=
  (indexedErrorTerms.filter (fun p => 2 ∈ p.2)).map Prod.fst

/-- **C3, counterexample.** It is not the case that the only failure modes
documented for the files utilities are a file-not-found error and a value
error: the `files` documentation also indexes `typeerror`, `oserror` and
`userwarn`. -/
theorem files_error_terms_not_only_two :
    ¬ (∀ t ∈ filesDocErrorTerms, t = "filenotfounderror" ∨ t = "valueerror") := by
  decide

/-- **C3, amended.** The failure modes documented for the files utilities
are a file-not-found error, a value error, an OS error, a type error and a
user warning — and no others. -/
theorem files_error_terms_exactly :
    filesDocErrorTerms =
      ["filenotfounderror", "oserror", "typeerror", "userwarn", "valueerror"] ∧
    ∀ t ∈ filesDocErrorTerms,
      t = "filenotfounderror" ∨ t = "valueerror" ∨ t = "oserror" ∨
        t = "typeerror" ∨ t = "userwarn" := by
  decide

/-! ## The supplied repository's contents

Transcribed from the source tree: every supplied file with its kind.  The
seven files of unknown name are reStructuredText documentation sources except
one, which is the generated Sphinx search index. -/

/-- Kinds of file present in the supplied repository material. -/
inductive RepoFileKind
  | sphinxRst
  | sphinxRstTxt
  | sphinxSearchIndex
  | exampleNotebook
  deriving Repr, DecidableEq

/-- The supplied repository files and their kinds, transcribed from the
source tree. -/
def repoFiles : List (String × RepoFileKind) :=
  [("builddocs/index.rst", .sphinxRst),
   ("builddocs/rst/api/templates.rst", .sphinxRst),
   ("builddocs/rst/api-reference/constants.rst", .sphinxRst),
   ("builddocs/rst/installation.rst", .sphinxRst),
   ("docs/_sources/index.rst.txt", .sphinxRstTxt),
   ("docs/_sources/rst/installation.rst.txt", .sphinxRstTxt),
   ("docs/_sources/rst/api/anc.rst.txt", .sphinxRstTxt),
   ("docs/_sources/rst/api/anc/anc.rst.txt", .sphinxRstTxt),
   ("docs/_sources/rst/api/graphics.rst.txt", .sphinxRstTxt),
   ("docs/_sources/rst/api/spectra.rst.txt", .sphinxRstTxt),
   ("docs/_downloads/d7e2f1393cecb623fdfae9e72b447b82/plot_flatfield_differences.ipynb",
    .exampleNotebook),
   ("docs/_downloads/54f6507ad676d043bf7cfeb9cbdc00cc/plot_muv_pointspread_function.ipynb",
    .exampleNotebook),
   ("unnamed/part_000", .sphinxRst),
   ("unnamed/part_001", .sphinxRst),
   ("unnamed/part_002", .sphinxRst),
   ("unnamed/part_003", .sphinxSearchIndex),
   ("unnamed/part_004", .sphinxRst),
   ("unnamed/part_005", .sphinxRst),
   ("unnamed/part_006", .sphinxRst)]

/-- Whether a file kind is a documentation source (a Sphinx `.rst` file or a
generated HTML/search index). -/
def isDocumentationSource : RepoFileKind → Bool
  | .sphinxRst => true
  | .sphinxRstTxt => true
  | .sphinxSearchIndex => true
  | .exampleNotebook => false

/-- Whether a file kind is an example notebook. -/
def isExampleNotebook : RepoFileKind → Bool
  | .exampleNotebook => true
  | _ => false

/-- **C4.** Every file in the supplied repository is a documentation source
(a Sphinx `.rst` file or a generated HTML/search index) or an example
notebook; none contains executable package source. -/
theorem repo_is_docs_and_notebooks :
    ∀ f ∈ repoFiles,
      isDocumentationSource f.2 = true ∨ isExampleNotebook f.2 = true := by
  decide

/-- Witness for C4 at a concrete repository file. -/
theorem repo_is_docs_and_notebooks_witness :
    ("builddocs/index.rst", RepoFileKind.sphinxRst) ∈ repoFiles ∧
    (isDocumentationSource RepoFileKind.sphinxRst = true ∨
      isExampleNotebook RepoFileKind.sphinxRst = true) :=
  ⟨by decide, repo_is_docs_and_notebooks ("builddocs/index.rst", RepoFileKind.sphinxRst)
    (by decide)⟩

/-! ## Optional installation dependency groups

Transcribed from the source (the Optional Dependencies section of the
installation documentation); the package's build configuration itself is not
part of the supplied material. -/

/-- The optional dependency groups (pip extras) listed by the installation
documentation's Optional Dependencies section, in its order. -/
def documentedOptionalDeps : List String :=
  ["all", "database", "datafiles", "docs", "graphics-advanced",
   "graphics-basic", "spice", "test"]

/-- **C5.** The set of optional installation dependency groups offered by
the package is exactly {datafiles, graphics-basic, graphics-advanced, spice,
database, docs, test, all}. -/
theorem optional_deps_exactly :
    documentedOptionalDeps.Nodup ∧
    documentedOptionalDeps.Perm
      ["datafiles", "graphics-basic", "graphics-advanced", "spice",
       "database", "docs", "test", "all"] := by
  decide

/-- Modelled from the spec: the libraries the `database` optional dependency
group installs; the group is a work in progress and currently has no effect,
so it contributes no libraries. -/
def databaseExtraLibraries : List String := []

/-- Modelled from the spec: installing the package with a list of extras
installs the base libraries followed by each named group's libraries, the
`database` group contributing `databaseExtraLibraries`. -/
def installedLibraries (base : List String) (libsOf : String → List String)
    (extras : List String) : List String :=
  base ++ (extras.map fun e =>
    if e = "database" then databaseExtraLibraries else libsOf e).flatten

/-- **C6.** Installing the `database` optional dependency group currently
has no effect: for every invocation of the installation, adding the
`database` extra installs no additional libraries. -/
theorem database_extra_no_effect (base : List String)
    (libsOf : String → List String) (extras : List String) :
    installedLibraries base libsOf ("database" :: extras) =
      installedLibraries base libsOf extras ∧
    installedLibraries base libsOf ["database"] = base := by
  constructor <;> simp [installedLibraries, databaseExtraLibraries]

/-! ## The documented public API

Transcribed from the source: the generated Sphinx search index's object
table lists the documented modules, their classes, and each class's
documented methods. -/

/-- The documented API object table: each module with its classes and their
methods, transcribed from the search index (`constants` documents data
entries, not classes). -/
def documentedAPI : List (String × List (String × List String)) :=
  [("constants", []),
   ("files",
     [("DataFilename",
       ["__init__", "channel", "date", "day", "description", "extension",
        "filename", "hour", "instrument", "level", "minute", "month", "orbit",
        "path", "revision", "second", "segment", "spacecraft", "time",
        "timestamp", "version", "year"]),
      ("DataFilenameCollection",
       ["__init__", "all_apoapse", "all_ech", "all_fuv", "all_l1b", "all_l1c",
        "all_muv", "all_periapse", "filenames", "n_files"]),
      ("DataPath", ["__init__", "block", "block_paths"]),
      ("DataPattern",
       ["data_pattern", "generic_pattern", "multi_orbit_patterns",
        "orbit_pattern", "prepend_recursive_pattern"]),
      ("FileFinder", ["__init__", "multi_orbit_files", "orbit_range_files", "soschob"]),
      ("Orbit", ["__init__", "block", "block_folder", "code", "orbit"])]),
   ("geography",
     [("Geography",
       ["__init__", "angular_distance", "get_location_indices",
        "location_in_arrays", "locations", "r_mars", "spatial_distance"])]),
   ("orbit",
     [("OrbitalGeometry",
       ["__init__", "find_maven_apsis_et", "get_orbit_positions", "spice_positions"])]),
   ("spice",
     [("Spice",
       ["__init__", "furnish_ck", "furnish_sclk", "furnish_spk", "load_spice"])])]

/-- **C10.** The documented public API includes, beyond the file/graphics/
spice/database subpackages, a `geography` module whose `Geography` class
computes angular and spatial distances and location indices, and an `orbit`
module whose `OrbitalGeometry` class finds MAVEN apoapsis/periapsis
ephemeris times and orbit positions. -/
theorem documented_geography_and_orbit :
    (∃ m ∈ documentedAPI, m.1 = "geography" ∧
      ∃ cls ∈ m.2, cls.1 = "Geography" ∧
        "angular_distance" ∈ cls.2 ∧ "spatial_distance" ∈ cls.2 ∧
        "get_location_indices" ∈ cls.2) ∧
    (∃ m ∈ documentedAPI, m.1 = "orbit" ∧
      ∃ cls ∈ m.2, cls.1 = "OrbitalGeometry" ∧
        "find_maven_apsis_et" ∈ cls.2 ∧ "get_orbit_positions" ∈ cls.2 ∧
        "spice_positions" ∈ cls.2) := by
  decide

end PyUVS
